import Mathlib

/-!
Shallow embedding of the FastPKI issuance and chain-of-trust engine.

The definitions below are translated from the repository source:
  - app/services/ca.py      (CAService: generate_key_pair, parse_subject_dn,
                             create_ca, delete_ca)
  - app/services/cert.py    (CertificateService: create_certificate,
                             revoke_certificate)
  - app/api/export.py       (export_certificate_chain)
  - app/db/models.py        (CertificateAuthority, Certificate, CRLEntry)
  - app/core/config.py      (Settings defaults)

Modelling conventions:
  - Timestamps are integers counting seconds; a Python timedelta of d days
    is 86400 * d seconds.
  - PEM-encoded certificates are modelled by their parsed content
    (BuiltCert); a PEM string and the x509 object parsed from it are in
    bijection, and no claim inspects the base64 text itself.
  - RSA key material is irrelevant to every claim; key generation is
    modelled by threading an abstract PEM string for the private key.
  - The database is a keyed record store (Store) of the three record kinds;
    db.get is lookup by primary key (getById).
  - Python `x or default` on an Optional[int] falls back to the default
    both for None and for 0 (falsiness); pyOrInt models this exactly.
  - The unbounded `while` loop of export_certificate_chain is made total
    with a fuel argument; a run that completes within the fuel is
    unaffected by extra fuel, and the second component of the result
    records whether the loop completed (true) or the fuel ran out (false).
-/

set_option autoImplicit false

namespace FastPKI

/-- Recognized X.509 name attribute OIDs (NameOID.* used by parse_subject_dn). -/
inductive OidKey
  | commonName
  | organizationName
  | organizationalUnitName
  | countryName
  | stateOrProvinceName
  | localityName
deriving DecidableEq, Repr

/-- Python enum CertificateType from app/db/models.py. -/
inductive CertificateType
  | ca
  | server
  | client
deriving DecidableEq, Repr

/-- Python enum CertificateStatus from app/db/models.py. -/
inductive CertificateStatus
  | valid
  | revoked
  | expired
deriving DecidableEq, Repr

/-- Extended key usage OIDs used by create_certificate. -/
inductive EKUOid
  | serverAuth
  | clientAuth
deriving DecidableEq, Repr

/-- The nine boolean flags of x509.KeyUsage. -/
structure KeyUsage where
  digital_signature : Bool
  content_commitment : Bool
  key_encipherment : Bool
  data_encipherment : Bool
  key_agreement : Bool
  key_cert_sign : Bool
  crl_sign : Bool
  encipher_only : Bool
  decipher_only : Bool
deriving DecidableEq, Repr

/-- Extension values appearing in certificates built by this code base. -/
inductive ExtVal
  | basicConstraints (ca : Bool) (path_length : Option Nat)
  | keyUsage (ku : KeyUsage)
  | extendedKeyUsage (usages : List EKUOid)
  | subjectKeyIdentifier
  | authorityKeyIdentifier
deriving DecidableEq, Repr

/-- An X.509v3 extension together with its criticality flag. -/
structure Extension where
  value : ExtVal
  critical : Bool
deriving DecidableEq, Repr

/-- Content of an X.509 certificate as assembled by x509.CertificateBuilder:
subject and issuer names (ordered attribute lists), the validity window, the
serial number and the extension list, in the order they were added. -/
structure BuiltCert where
  subjectName : List (OidKey × String)
  issuerName : List (OidKey × String)
  notBefore : Int
  notAfter : Int
  serial : Nat
  extensions : List Extension
deriving DecidableEq, Repr

/-- CertificateAuthority row from app/db/models.py (timestamps elided; the
model has no issuer reference field, matching the source table). -/
structure CertificateAuthority where
  name : String
  description : Option String
  subject_dn : String
  key_size : Int
  valid_days : Int
  private_key : String
  certificate : BuiltCert
deriving DecidableEq, Repr

/-- Certificate row from app/db/models.py (timestamps elided). -/
structure Certificate where
  common_name : String
  subject_dn : String
  certificate_type : CertificateType
  key_size : Int
  valid_days : Int
  status : CertificateStatus
  private_key : Option String
  certificate : BuiltCert
  serial_number : String
  not_before : Int
  not_after : Int
  revoked_at : Option Int
  issuer_id : Option Nat
deriving DecidableEq, Repr

/-- CRLEntry row from app/db/models.py.  The column ca_id is declared int,
but revoke_certificate populates it with cert.issuer_id, which is Optional;
the field is therefore modelled as the value actually passed. -/
structure CRLEntry where
  serial_number : String
  revocation_date : Int
  reason : Option String
  ca_id : Option Nat
deriving DecidableEq, Repr

/-- The keyed record store: the three tables, keyed by primary key. -/
structure Store where
  cas : List (Nat × CertificateAuthority)
  certs : List (Nat × Certificate)
  crl : List CRLEntry
deriving DecidableEq, Repr

/-- Configuration defaults from app/core/config.py. -/
structure Settings where
  CA_KEY_SIZE : Int
  CA_CERT_DAYS : Int
  CERT_KEY_SIZE : Int
  CERT_DAYS : Int
deriving DecidableEq, Repr

/-- Values of the Settings class defaults. -/
def settings : Settings :=
  { CA_KEY_SIZE := 4096, CA_CERT_DAYS := 3650, CERT_KEY_SIZE := 2048, CERT_DAYS := 365 }

/-- Python `v or default` for an Optional[int]: None and 0 are falsy. -/
def pyOrInt (v : Option Int) (dflt : Int) : Int :=
  match v with
  | none => dflt
  | some x => if x = 0 then dflt else x

/-- Lookup by primary key (db.get). -/
def getById {α : Type} : List (Nat × α) → Nat → Option α
  | [], _ => none
  | (k, v) :: rest, i => if k = i then some v else getById rest i

/-- Replace the record stored under a key, leaving other records in place. -/
def setById {α : Type} : List (Nat × α) → Nat → α → List (Nat × α)
  | [], _, _ => []
  | (k, v) :: rest, i, v' => if k = i then (k, v') :: rest else (k, v) :: setById rest i v'

/-- Python format(n, 'x'): lowercase hexadecimal digits of a serial number. -/
def toHex (n : Nat) : String :=
  String.mk (Nat.toDigits 16 n)

/-! DistinguishedNameParser: CAService.parse_subject_dn.  The Python string
primitives split and strip are modelled by structurally recursive functions
on the character list of the string (the core library loops do not reduce
inside the kernel). -/

/-- Split a character list on a separator; like Python str.split(sep), the
empty input yields one empty group and separators at the ends yield empty
groups. -/
def splitListOn (sep : Char) : List Char → List (List Char)
  | [] => [[]]
  | c :: rest =>
    let r := splitListOn sep rest
    if c = sep then [] :: r
    else
      match r with
      | [] => [[c]]
      | g :: gs => (c :: g) :: gs

/-- Python str.split(sep) for a one-character separator. -/
def pySplit (sep : Char) (s : String) : List String :=
  (splitListOn sep s.data).map String.mk

/-- Whitespace characters stripped by Python str.strip(). -/
def isPySpace (c : Char) : Bool :=
  (c == ' ') || (c == '\t') || (c == '\n') || (c == '\r') ||
    (c == '\x0b') || (c == '\x0c')

/-- Drop leading whitespace from a character list. -/
def dropLeadingSpaces : List Char → List Char
  | [] => []
  | c :: rest => if isPySpace c then dropLeadingSpaces rest else c :: rest

/-- Python str.strip(): drop whitespace from both ends. -/
def pyStrip (s : String) : String :=
  String.mk ((dropLeadingSpaces ((dropLeadingSpaces s.data).reverse)).reverse)

/-- Split a character list at its first '='; none when '=' is absent. -/
def splitFirstEqChars : List Char → Option (List Char × List Char)
  | [] => none
  | c :: rest =>
    if c = '=' then some ([], rest)
    else
      match splitFirstEqChars rest with
      | none => none
      | some (k, v) => some (c :: k, v)

/-- Python part.split("=", 1): everything before the first '=' and everything
after it; a segment without '=' makes the tuple unpacking raise ValueError,
modelled as none. -/
def splitFirstEq (part : String) : Option (String × String) :=
  match splitFirstEqChars part.data with
  | none => none
  | some (k, v) => some (String.mk k, String.mk v)

/-- Python dict assignment parts[key] = value: replace in place if the key is
present, otherwise append (insertion order preserved). -/
def dictInsert (parts : List (String × String)) (key value : String) :
    List (String × String) :=
  if parts.any (fun p => p.1 == key) then
    parts.map (fun p => if p.1 == key then (p.1, value) else p)
  else
    parts ++ [(key, value)]

/-- Python dict membership and subscript: first (and only) entry for a key. -/
def dictFind (parts : List (String × String)) (key : String) : Option String :=
  match parts.find? (fun p => p.1 == key) with
  | some p => some p.2
  | none => none

/-- The first loop of parse_subject_dn: split the DN on ',', split each
stripped segment on the first '=', and collect keys and values (stripped
again) into a dict. -/
def parseDnParts : List String → List (String × String) →
    Option (List (String × String))
  | [], parts => some parts
  | seg :: rest, parts =>
    match splitFirstEq (pyStrip seg) with
    | none => none
    | some (k, v) => parseDnParts rest (dictInsert parts (pyStrip k) (pyStrip v))

/-- The second half of parse_subject_dn: append one NameAttribute for each
recognized key present in the dict, in the fixed textual order of the
source (CN, O, OU, C, ST, L). -/
def buildNameAttributes (parts : List (String × String)) :
    List (OidKey × String) :=
  let a : List (OidKey × String) := []
  let a := match dictFind parts "CN" with
    | some v => a ++ [(OidKey.commonName, v)]
    | none => a
  let a := match dictFind parts "O" with
    | some v => a ++ [(OidKey.organizationName, v)]
    | none => a
  let a := match dictFind parts "OU" with
    | some v => a ++ [(OidKey.organizationalUnitName, v)]
    | none => a
  let a := match dictFind parts "C" with
    | some v => a ++ [(OidKey.countryName, v)]
    | none => a
  let a := match dictFind parts "ST" with
    | some v => a ++ [(OidKey.stateOrProvinceName, v)]
    | none => a
  let a := match dictFind parts "L" with
    | some v => a ++ [(OidKey.localityName, v)]
    | none => a
  a

/-- CAService.parse_subject_dn: none models the ValueError raised when a
segment lacks '='. -/
def parse_subject_dn (subject_dn : String) : Option (List (OidKey × String)) :=
  match parseDnParts (pySplit ',' subject_dn) [] with
  | none => none
  | some parts => some (buildNameAttributes parts)

/-! ExtensionPolicy as implemented: the sequential conditional appends of
create_certificate (app/services/cert.py lines 84-126) and the fixed
extension block of create_ca (app/services/ca.py lines 99-120). -/

/-- KeyUsage constructed by create_certificate (cert.py lines 89-99). -/
def certKeyUsage (t : CertificateType) : KeyUsage :=
  { digital_signature := true
    content_commitment := false
    key_encipherment := true
    data_encipherment := false
    key_agreement := false
    key_cert_sign := decide (t = CertificateType.ca)
    crl_sign := decide (t = CertificateType.ca)
    encipher_only := false
    decipher_only := false }

/-- The extended_key_usages list built by the if/elif of cert.py 103-107. -/
def extendedKeyUsages (t : CertificateType) : List EKUOid :=
  match t with
  | CertificateType.server => [EKUOid.serverAuth]
  | CertificateType.client => [EKUOid.clientAuth]
  | CertificateType.ca => []

/-- Extensions added by create_certificate, in source order: basicConstraints
(critical), keyUsage (critical), extendedKeyUsage when non-empty
(non-critical), subjectKeyIdentifier (non-critical), authorityKeyIdentifier
(non-critical). -/
def certExtensions (t : CertificateType) : List Extension :=
  let exts : List Extension :=
    [{ value := ExtVal.basicConstraints (decide (t = CertificateType.ca)) none,
       critical := true },
     { value := ExtVal.keyUsage (certKeyUsage t), critical := true }]
  let exts :=
    if (extendedKeyUsages t).isEmpty then exts
    else exts ++ [{ value := ExtVal.extendedKeyUsage (extendedKeyUsages t),
                    critical := false }]
  exts ++ [{ value := ExtVal.subjectKeyIdentifier, critical := false },
           { value := ExtVal.authorityKeyIdentifier, critical := false }]

/-- KeyUsage constructed by create_ca (ca.py lines 104-114). -/
def caKeyUsage : KeyUsage :=
  { digital_signature := true
    content_commitment := false
    key_encipherment := false
    data_encipherment := false
    key_agreement := false
    key_cert_sign := true
    crl_sign := true
    encipher_only := false
    decipher_only := false }

/-- Extensions added by create_ca, in source order: basicConstraints
(critical, CA true), keyUsage (critical), subjectKeyIdentifier
(non-critical); no extendedKeyUsage and no authorityKeyIdentifier. -/
def caExtensions : List Extension :=
  [{ value := ExtVal.basicConstraints true none, critical := true },
   { value := ExtVal.keyUsage caKeyUsage, critical := true },
   { value := ExtVal.subjectKeyIdentifier, critical := false }]

/-! IssuanceEngine, RevocationLedger, deletion and ChainResolver. -/

/-- Failure kinds of the certificate service (the Python code raises
ValueError for the first two and lets ExtensionNotFound from the
cryptography library propagate for the third). -/
inductive CertError
  | issuerNotFound
  | malformedName
  | extensionNotFound
deriving DecidableEq, Repr

/-- Check whether a certificate carries a SubjectKeyIdentifier extension
(ca_cert.extensions.get_extension_for_class(x509.SubjectKeyIdentifier)). -/
def isSubjectKeyIdentifier : ExtVal → Bool
  | ExtVal.subjectKeyIdentifier => true
  | _ => false

/-- True when get_extension_for_class(SubjectKeyIdentifier) would succeed. -/
def hasSubjectKeyIdentifier (c : BuiltCert) : Bool :=
  c.extensions.any (fun e => isSubjectKeyIdentifier e.value)

/-- CAService.create_ca.  The random serial and the generated private-key
PEM are threaded in as parameters; now is the current time in seconds.
The subject is parsed from subject_dn and used as both subject_name and
issuer_name (self-signed); none models the ValueError escaping from
parse_subject_dn. -/
def create_ca (name subject_dn : String) (description : Option String)
    (key_size valid_days : Option Int) (now : Int) (serial : Nat)
    (private_key_pem : String) : Option CertificateAuthority :=
  let ks := pyOrInt key_size settings.CA_KEY_SIZE
  let vd := pyOrInt valid_days settings.CA_CERT_DAYS
  match parse_subject_dn subject_dn with
  | none => none
  | some subject =>
    some
      { name := name
        description := description
        subject_dn := subject_dn
        key_size := ks
        valid_days := vd
        private_key := private_key_pem
        certificate :=
          { subjectName := subject
            issuerName := subject
            notBefore := now
            notAfter := now + 86400 * vd
            serial := serial
            extensions := caExtensions } }

/-- CertificateService.create_certificate.  The issuer is looked up by
primary key in the certificate_authorities table only (cert.py line 40);
an absent row raises ValueError (issuerNotFound).  The subject DN is then
parsed; the certificate is built with issuer_name taken from the CA
certificate's subject, validity now .. now + valid_days, the role-dependent
extension block, and the authority key identifier copied from the CA
certificate's subject key identifier (extensionNotFound when absent).
The generated private key is persisted only when include_private_key. -/
def create_certificate (s : Store) (ca_id : Nat)
    (common_name subject_dn : String) (certificate_type : CertificateType)
    (key_size valid_days : Option Int) (include_private_key : Bool)
    (now : Int) (serial : Nat) (private_key_pem : String) :
    Except CertError Certificate :=
  let ks := pyOrInt key_size settings.CERT_KEY_SIZE
  let vd := pyOrInt valid_days settings.CERT_DAYS
  match getById s.cas ca_id with
  | none => Except.error CertError.issuerNotFound
  | some ca =>
    match parse_subject_dn subject_dn with
    | none => Except.error CertError.malformedName
    | some subject =>
      if hasSubjectKeyIdentifier ca.certificate then
        let not_before := now
        let not_after := now + 86400 * vd
        Except.ok
          { common_name := common_name
            subject_dn := subject_dn
            certificate_type := certificate_type
            key_size := ks
            valid_days := vd
            status := CertificateStatus.valid
            private_key := if include_private_key then some private_key_pem else none
            certificate :=
              { subjectName := subject
                issuerName := ca.certificate.subjectName
                notBefore := not_before
                notAfter := not_after
                serial := serial
                extensions := certExtensions certificate_type }
            serial_number := toHex serial
            not_before := not_before
            not_after := not_after
            revoked_at := none
            issuer_id := some ca_id }
      else Except.error CertError.extensionNotFound

/-- CertificateService.revoke_certificate: an absent id returns None and
leaves the store untouched; otherwise the certificate's status becomes
REVOKED with revoked_at = now, and one CRLEntry keyed to the serial number
and to cert.issuer_id is appended. -/
def revoke_certificate (s : Store) (cert_id : Nat) (reason : Option String)
    (now : Int) : Option Certificate × Store :=
  match getById s.certs cert_id with
  | none => (none, s)
  | some cert =>
    let cert' : Certificate :=
      { cert with status := CertificateStatus.revoked, revoked_at := some now }
    let crl_entry : CRLEntry :=
      { serial_number := cert.serial_number
        revocation_date := now
        reason := reason
        ca_id := cert.issuer_id }
    (some cert',
     { s with certs := setById s.certs cert_id cert'
              crl := s.crl ++ [crl_entry] })

/-- CAService.delete_ca: returns False and changes nothing when the id is
absent; otherwise deletes the CA row, and the SQLAlchemy relationship
cascade (all, delete-orphan) removes the certificates whose issuer_id
references it.  CRL entries have no cascading relationship. -/
def delete_ca (s : Store) (ca_id : Nat) : Bool × Store :=
  match getById s.cas ca_id with
  | some _ =>
    (true,
     { s with cas := s.cas.filter (fun p => p.1 != ca_id)
              certs := s.certs.filter (fun p => p.2.issuer_id != some ca_id) })
  | none => (false, s)

/-- The while loop of export_certificate_chain, following the issuer
reference: a None reference exits the loop; a reference that resolves in
the CA table appends that certificate and breaks; one that resolves only
in the certificate table appends and continues with that certificate's
issuer; one that resolves nowhere breaks.  The fuel argument makes the
unbounded loop total; the Bool records whether the loop completed. -/
def chainFollow (s : Store) : Option Nat → Nat → List BuiltCert × Bool
  | none, _ => ([], true)
  | some _, 0 => ([], false)
  | some i, fuel + 1 =>
    match getById s.cas i with
    | some ca => ([ca.certificate], true)
    | none =>
      match getById s.certs i with
      | some c =>
        let r := chainFollow s c.issuer_id fuel
        (c.certificate :: r.1, r.2)
      | none => ([], true)

/-- export_certificate_chain from app/api/export.py: 404 (none) when the
leaf id is unknown, otherwise the leaf certificate followed by the chain
collected by the loop. -/
def export_certificate_chain (s : Store) (cert_id : Nat) (fuel : Nat) :
    Option (List BuiltCert × Bool) :=
  match getById s.certs cert_id with
  | none => none
  | some cert =>
    let r := chainFollow s cert.issuer_id fuel
    some (cert.certificate :: r.1, r.2)

/-! Spec side of the ExtensionPolicy refinement (spec section 4.3). -/

/-- Roles of the ExtensionPolicy table in spec section 4.3. -/
inductive SpecRole
  | rootAuthority
  | subAuthority
  | server
  | client
deriving DecidableEq, Repr

/-- Observable shape of an extension set, row format of the spec's
ExtensionPolicy table: basicConstraints CA flag and criticality, the four
relevant keyUsage bits and criticality, the extendedKeyUsage content and
criticality, and presence/criticality of the two key identifiers. -/
structure SpecExtensionSet where
  bcCA : Bool
  bcCritical : Bool
  keyCertSign : Bool
  crlSign : Bool
  digitalSignature : Bool
  keyEncipherment : Bool
  kuCritical : Bool
  eku : Option EKUOid
  ekuCritical : Bool
  ski : Bool
  skiCritical : Bool
  aki : Bool
  akiCritical : Bool
deriving DecidableEq, Repr

/-- The ExtensionPolicy table written from the spec's words (section 4.3),
with one amendment forced by the code: keyEncipherment is set for every
certificate issued by IssueCertificate (subordinate authority included),
and clear only on the self-signed root built by IssueAuthority. -/
def extensionPolicySpec : SpecRole → SpecExtensionSet
  | SpecRole.rootAuthority =>
    { bcCA := true, bcCritical := true, keyCertSign := true, crlSign := true
      digitalSignature := true, keyEncipherment := false, kuCritical := true
      eku := none, ekuCritical := false, ski := true, skiCritical := false
      aki := false, akiCritical := false }
  | SpecRole.subAuthority =>
    { bcCA := true, bcCritical := true, keyCertSign := true, crlSign := true
      digitalSignature := true, keyEncipherment := true, kuCritical := true
      eku := none, ekuCritical := false, ski := true, skiCritical := false
      aki := true, akiCritical := false }
  | SpecRole.server =>
    { bcCA := false, bcCritical := true, keyCertSign := false, crlSign := false
      digitalSignature := true, keyEncipherment := true, kuCritical := true
      eku := some EKUOid.serverAuth, ekuCritical := false
      ski := true, skiCritical := false, aki := true, akiCritical := false }
  | SpecRole.client =>
    { bcCA := false, bcCritical := true, keyCertSign := false, crlSign := false
      digitalSignature := true, keyEncipherment := true, kuCritical := true
      eku := some EKUOid.clientAuth, ekuCritical := false
      ski := true, skiCritical := false, aki := true, akiCritical := false }

/-- Recognizer for basicConstraints extensions. -/
def isBasicConstraintsExt : ExtVal → Bool
  | ExtVal.basicConstraints _ _ => true
  | _ => false

/-- Recognizer for keyUsage extensions. -/
def isKeyUsageExt : ExtVal → Bool
  | ExtVal.keyUsage _ => true
  | _ => false

/-- Recognizer for extendedKeyUsage extensions. -/
def isEkuExt : ExtVal → Bool
  | ExtVal.extendedKeyUsage _ => true
  | _ => false

/-- Recognizer for authorityKeyIdentifier extensions. -/
def isAkiExt : ExtVal → Bool
  | ExtVal.authorityKeyIdentifier => true
  | _ => false

/-- First extension of a given kind in a certificate's extension list. -/
def findExt (exts : List Extension) (p : ExtVal → Bool) : Option Extension :=
  exts.find? (fun e => p e.value)

/-- Criticality of an extension that may be absent (false when absent). -/
def extCritical : Option Extension → Bool
  | some e => e.critical
  | none => false

/-- CA flag of a basicConstraints extension (false when absent). -/
def bcFlag : Option Extension → Bool
  | some ⟨ExtVal.basicConstraints b _, _⟩ => b
  | _ => false

/-- Project one keyUsage bit out of a keyUsage extension (false when absent). -/
def kuFlag (f : KeyUsage → Bool) : Option Extension → Bool
  | some ⟨ExtVal.keyUsage k, _⟩ => f k
  | _ => false

/-- First usage OID of an extendedKeyUsage extension (none when absent). -/
def ekuFirst : Option Extension → Option EKUOid
  | some ⟨ExtVal.extendedKeyUsage us, _⟩ => us.head?
  | _ => none

/-- Read the ExtensionPolicy row realized by a concrete extension list. -/
def observedPolicy (exts : List Extension) : SpecExtensionSet :=
  { bcCA := bcFlag (findExt exts isBasicConstraintsExt)
    bcCritical := extCritical (findExt exts isBasicConstraintsExt)
    keyCertSign := kuFlag (fun k => k.key_cert_sign) (findExt exts isKeyUsageExt)
    crlSign := kuFlag (fun k => k.crl_sign) (findExt exts isKeyUsageExt)
    digitalSignature := kuFlag (fun k => k.digital_signature) (findExt exts isKeyUsageExt)
    keyEncipherment := kuFlag (fun k => k.key_encipherment) (findExt exts isKeyUsageExt)
    kuCritical := extCritical (findExt exts isKeyUsageExt)
    eku := ekuFirst (findExt exts isEkuExt)
    ekuCritical := extCritical (findExt exts isEkuExt)
    ski := (findExt exts (fun v => isSubjectKeyIdentifier v)).isSome
    skiCritical := extCritical (findExt exts (fun v => isSubjectKeyIdentifier v))
    aki := (findExt exts isAkiExt).isSome
    akiCritical := extCritical (findExt exts isAkiExt) }

/-- Role of a certificate issued by create_certificate, seen as a row of the
spec table: a CA-type issued certificate is a subordinate authority. -/
def issuedRole : CertificateType → SpecRole
  | CertificateType.ca => SpecRole.subAuthority
  | CertificateType.server => SpecRole.server
  | CertificateType.client => SpecRole.client

/-! Concrete records used to instantiate the theorems below. -/

/-- Certificate content of the demonstration root authority, exactly the
value produced by create_ca "Root" "CN=Root" at time 0 with serial 1. -/
def rootBuilt : BuiltCert :=
  { subjectName := [(OidKey.commonName, "Root")]
    issuerName := [(OidKey.commonName, "Root")]
    notBefore := 0
    notAfter := 315360000
    serial := 1
    extensions := caExtensions }

/-- Demonstration root authority record. -/
def rootAuthority : CertificateAuthority :=
  { name := "Root", description := none, subject_dn := "CN=Root"
    key_size := 4096, valid_days := 3650, private_key := "pk"
    certificate := rootBuilt }

/-- Minimal certificate content distinguished by its serial number. -/
def builtOf (serial : Nat) : BuiltCert :=
  { subjectName := [], issuerName := [], notBefore := 0, notAfter := 0
    serial := serial, extensions := [] }

/-- Build a stored certificate row with the given role and issuer. -/
def mkCert (cn : String) (t : CertificateType) (issuer : Option Nat)
    (b : BuiltCert) : Certificate :=
  { common_name := cn, subject_dn := "", certificate_type := t
    key_size := 2048, valid_days := 365, status := CertificateStatus.valid
    private_key := none, certificate := b, serial_number := toHex b.serial
    not_before := 0, not_after := 0, revoked_at := none, issuer_id := issuer }

/-- Intermediate authority-role certificate issued under CA 1. -/
def interCert : Certificate := mkCert "inter" CertificateType.ca (some 1) (builtOf 2)

/-- Client certificate issued under the intermediate (stored id 2). -/
def leafUnderInter : Certificate := mkCert "leaf3" CertificateType.client (some 2) (builtOf 3)

/-- Server certificate issued directly under CA 1. -/
def leafUnderRoot : Certificate := mkCert "leaf2" CertificateType.server (some 1) (builtOf 4)

/-- Certificate without any issuer reference. -/
def soloCert : Certificate := mkCert "solo" CertificateType.server none (builtOf 5)

/-- Certificate whose issuer reference resolves to no stored record. -/
def orphanCert : Certificate := mkCert "orphan" CertificateType.server (some 99) (builtOf 6)

/-- Demonstration store: a root CA (id 1), an intermediate certificate
(id 2) under it, a leaf (id 3) under the intermediate, a leaf (id 4) under
the root, a certificate with no issuer (id 5) and one with a dangling
issuer reference (id 6). -/
def demoStore : Store :=
  { cas := [(1, rootAuthority)]
    certs := [(2, interCert), (3, leafUnderInter), (4, leafUnderRoot),
              (5, soloCert), (6, orphanCert)]
    crl := [] }

/-- Certificate record produced by issuing a server certificate for
subject "CN=x" under CA 1 of demoStore at time 0 with serial 10. -/
def demoCert : Certificate :=
  { common_name := "cn", subject_dn := "CN=x"
    certificate_type := CertificateType.server
    key_size := 2048, valid_days := 365, status := CertificateStatus.valid
    private_key := some "pk"
    certificate :=
      { subjectName := [(OidKey.commonName, "x")]
        issuerName := [(OidKey.commonName, "Root")]
        notBefore := 0, notAfter := 31536000, serial := 10
        extensions := certExtensions CertificateType.server }
    serial_number := "a", not_before := 0, not_after := 31536000
    revoked_at := none, issuer_id := some 1 }

/-- Already-revoked certificate used to exercise re-revocation. -/
def revokedCert : Certificate :=
  { mkCert "revoked" CertificateType.server (some 1) (builtOf 7) with
      status := CertificateStatus.revoked, revoked_at := some 5 }

/-- Store holding one already-revoked certificate under CA 1. -/
def revStore : Store :=
  { cas := [(1, rootAuthority)], certs := [(7, revokedCert)], crl := [] }

/-- Store whose only record under id 5 is an authority-role certificate;
no CA row exists at all. -/
def authIssuerStore : Store :=
  { cas := [], certs := [(5, interCert)], crl := [] }

/-- Certificate citing certificate 2 as issuer. -/
def cycCertA : Certificate := mkCert "cycA" CertificateType.server (some 2) (builtOf 8)

/-- Certificate citing certificate 1 as issuer. -/
def cycCertB : Certificate := mkCert "cycB" CertificateType.server (some 1) (builtOf 9)

/-- Store containing a two-certificate issuer cycle and no CA rows. -/
def cyclicStore : Store :=
  { cas := [], certs := [(1, cycCertA), (2, cycCertB)], crl := [] }

/-! Theorems. -/

/-- C1 (amended): for every certificate issued by create_certificate the
realized extensions match the ExtensionPolicy table row of its role —
basicConstraints.CA and keyCertSign/cRLSign hold exactly for the authority
role, extendedKeyUsage is serverAuth for server, clientAuth for client and
absent for authority, digitalSignature is always set, basicConstraints and
keyUsage are critical while extendedKeyUsage and the key identifiers are
not — and keyEncipherment is set for every issued certificate (authority
role included), while the self-signed root built by create_ca matches the
root row, with keyEncipherment clear and no authorityKeyIdentifier. -/
theorem c1_extension_policy_refined :
    (∀ t : CertificateType,
        observedPolicy (certExtensions t) = extensionPolicySpec (issuedRole t)) ∧
    observedPolicy caExtensions = extensionPolicySpec SpecRole.rootAuthority := by
  constructor
  · intro t
    cases t <;> rfl
  · rfl

/-- C1 (counterexample): the claim says keyEncipherment is set only for the
server and client roles, yet an authority-role certificate issued by
create_certificate carries keyEncipherment. -/
theorem c1_keyEncipherment_counterexample :
    (observedPolicy (certExtensions CertificateType.ca)).keyEncipherment = true ∧
    CertificateType.ca ≠ CertificateType.server ∧
    CertificateType.ca ≠ CertificateType.client := by
  exact ⟨rfl, by decide, by decide⟩

/-- C6: every authority record built by create_ca carries a certificate
whose issuer name equals its subject name (self-signed); the
CertificateAuthority record type has no issuer reference field. -/
theorem c6_create_ca_self_signed :
    ∀ (name subject_dn : String) (description : Option String)
      (key_size valid_days : Option Int) (now : Int) (serial : Nat)
      (pk : String) (ca : CertificateAuthority),
      create_ca name subject_dn description key_size valid_days now serial pk
        = some ca →
      ca.certificate.issuerName = ca.certificate.subjectName := by
  intro name dn desc ks vd now serial pk ca h
  unfold create_ca at h
  cases hp : parse_subject_dn dn with
  | none => rw [hp] at h; exact Option.noConfusion h
  | some subject =>
    rw [hp] at h
    injection h with h
    subst h
    rfl

/-- Witness for C6 at a concrete input: the root authority created from
subject "CN=Root" is self-signed. -/
theorem c6_witness :
    rootAuthority.certificate.issuerName = rootAuthority.certificate.subjectName :=
  c6_create_ca_self_signed "Root" "CN=Root" none none none 0 1 "pk"
    rootAuthority (by decide)

/-- Order in which parse_subject_dn emits recognized attributes. -/
def canonicalDnKeys : List OidKey :=
  [OidKey.commonName, OidKey.organizationName, OidKey.organizationalUnitName,
   OidKey.countryName, OidKey.stateOrProvinceName, OidKey.localityName]

/-- Helper: the attribute keys built from any parts dict follow the fixed
canonical order. -/
theorem buildNameAttributes_keys_sublist (parts : List (String × String)) :
    List.Sublist ((buildNameAttributes parts).map Prod.fst) canonicalDnKeys := by
  unfold buildNameAttributes
  cases dictFind parts "CN" <;> cases dictFind parts "O" <;>
    cases dictFind parts "OU" <;> cases dictFind parts "C" <;>
    cases dictFind parts "ST" <;> cases dictFind parts "L" <;>
    simp [canonicalDnKeys] <;> decide

/-- C8 (amended): the attribute keys of every successfully parsed DN form a
sublist of the fixed canonical key order CN, O, OU, C, ST, L; the input
order of the attributes is not preserved. -/
theorem c8_canonical_order :
    ∀ (dn : String) (attrs : List (OidKey × String)),
      parse_subject_dn dn = some attrs →
      List.Sublist (attrs.map Prod.fst) canonicalDnKeys := by
  intro dn attrs h
  unfold parse_subject_dn at h
  cases hp : parseDnParts (pySplit ',' dn) [] with
  | none => rw [hp] at h; exact Option.noConfusion h
  | some parts =>
    rw [hp] at h
    injection h with h
    subst h
    exact buildNameAttributes_keys_sublist parts

/-- Witness for C8 at a concrete input: "O=Acme,CN=Root" parses to CN
before O, a sublist of the canonical order. -/
theorem c8_witness :
    List.Sublist
      ([(OidKey.commonName, "Root"), (OidKey.organizationName, "Acme")].map
        Prod.fst) canonicalDnKeys :=
  c8_canonical_order "O=Acme,CN=Root"
    [(OidKey.commonName, "Root"), (OidKey.organizationName, "Acme")] (by decide)

/-- C8 (counterexample): two DN strings listing the same attributes in
different orders parse to the same ordered name, refuting the claim that
the parsed name preserves the order of the input string. -/
theorem c8_counterexample :
    parse_subject_dn "O=Acme,CN=Root" = parse_subject_dn "CN=Root,O=Acme" ∧
    ("O=Acme,CN=Root" : String) ≠ "CN=Root,O=Acme" := by
  exact ⟨by decide, by decide⟩

/-- C9 (amended): create_ca performs no emptiness validation — whenever the
subject DN parses to an empty name, the authority is still created, and
its certificate's subject name is empty. -/
theorem c9_empty_name_not_rejected :
    ∀ (name dn : String) (description : Option String)
      (key_size valid_days : Option Int) (now : Int) (serial : Nat)
      (pk : String),
      parse_subject_dn dn = some [] →
      (create_ca name dn description key_size valid_days now serial pk).isSome
          = true ∧
      Option.elim (create_ca name dn description key_size valid_days now serial pk)
        True (fun ca => ca.certificate.subjectName = []) := by
  intro name dn desc ks vd now serial pk hp
  unfold create_ca
  rw [hp]
  exact ⟨rfl, rfl⟩

/-- Witness for C9 at a concrete input: "X=1" parses to an empty name and
the authority is still created with an empty subject. -/
theorem c9_witness :
    (create_ca "Empty" "X=1" none none none 0 2 "pk").isSome = true ∧
    Option.elim (create_ca "Empty" "X=1" none none none 0 2 "pk") True
      (fun ca => ca.certificate.subjectName = []) :=
  c9_empty_name_not_rejected "Empty" "X=1" none none none 0 2 "pk" (by decide)

/-- C9 (counterexample): the DN "X=1" contains '=' in every segment but no
recognized key, parses to an empty name, and create_ca nevertheless
succeeds — no ValidationError and an Authority record is created. -/
theorem c9_counterexample :
    parse_subject_dn "X=1" = some [] ∧
    (create_ca "Empty" "X=1" none none none 0 2 "pk").isSome = true := by
  exact ⟨by decide, by decide⟩

/-- C4 (amended): create_certificate resolves its issuer reference only in
the certificate_authorities table and fails with the issuer-not-found
error exactly when that lookup misses; an authority-role certificate
stored under the referenced id is never consulted. -/
theorem c4_issuer_lookup_single_table :
    ∀ (s : Store) (ca_id : Nat) (cn dn : String) (t : CertificateType)
      (ks vd : Option Int) (ipk : Bool) (now : Int) (serial : Nat)
      (pk : String),
      (create_certificate s ca_id cn dn t ks vd ipk now serial pk
          = Except.error CertError.issuerNotFound)
        ↔ getById s.cas ca_id = none := by
  intro s ca_id cn dn t ks vd ipk now serial pk
  unfold create_certificate
  cases hca : getById s.cas ca_id with
  | none => simp
  | some ca =>
    cases hp : parse_subject_dn dn with
    | none => simp
    | some subject =>
      simp only []
      split <;> simp

/-- C4 (counterexample): a store holding an authority-role certificate under
id 5 and no CA row; the claim says the issuer reference should resolve to
that certificate, but issuance fails with the issuer-not-found error. -/
theorem c4_counterexample :
    getById authIssuerStore.certs 5 = some interCert ∧
    interCert.certificate_type = CertificateType.ca ∧
    create_certificate authIssuerStore 5 "cn" "CN=x" CertificateType.server
        none none true 0 7 "pk" = Except.error CertError.issuerNotFound := by
  exact ⟨rfl, rfl, rfl⟩

/-- C7 (amended): every certificate issued by create_certificate has
not_before equal to the issuance time and, whenever the requested validity
is absent or non-negative, not_before is at most not_after and their
difference is exactly the effective validity in days — the requested value
when it is non-zero, otherwise the configured default of 365 days (Python
falsiness maps a requested 0 to the default). -/
theorem c7_validity_window :
    ∀ (s : Store) (ca_id : Nat) (cn dn : String) (t : CertificateType)
      (ks vd : Option Int) (ipk : Bool) (now : Int) (serial : Nat)
      (pk : String) (cert : Certificate),
      create_certificate s ca_id cn dn t ks vd ipk now serial pk
          = Except.ok cert →
      (∀ v, vd = some v → 0 ≤ v) →
      cert.not_before = now ∧ cert.not_before ≤ cert.not_after ∧
        cert.not_after - cert.not_before = 86400 * pyOrInt vd settings.CERT_DAYS := by
  intro s ca_id cn dn t ks vd ipk now serial pk cert h hvd
  have h0 : 0 ≤ pyOrInt vd settings.CERT_DAYS := by
    cases vd with
    | none => decide
    | some v =>
      have hv := hvd v rfl
      by_cases hz : v = 0
      · simp [pyOrInt, hz]
        decide
      · simp [pyOrInt, hz]
        exact hv
  unfold create_certificate at h
  cases hca : getById s.cas ca_id with
  | none => simp [hca] at h
  | some ca =>
    cases hp : parse_subject_dn dn with
    | none => simp [hca, hp] at h
    | some subject =>
      simp only [hca, hp] at h
      split at h
      · injection h with h
        subst h
        refine ⟨rfl, ?_, ?_⟩
        · show now ≤ now + 86400 * pyOrInt vd settings.CERT_DAYS
          omega
        · show now + 86400 * pyOrInt vd settings.CERT_DAYS - now =
            86400 * pyOrInt vd settings.CERT_DAYS
          omega
      · exact Except.noConfusion h

/-- Witness for C7 at a concrete input: issuing a server certificate under
CA 1 of demoStore at time 0 with default validity. -/
theorem c7_witness :
    demoCert.not_before = 0 ∧ demoCert.not_before ≤ demoCert.not_after ∧
      demoCert.not_after - demoCert.not_before =
        86400 * pyOrInt none settings.CERT_DAYS :=
  c7_validity_window demoStore 1 "cn" "CN=x" CertificateType.server none none
    true 0 10 "pk" demoCert rfl (fun _ h => Option.noConfusion h)

/-- C7 (counterexample): requesting a validity of 0 days does not yield a
zero-length window; Python falsiness substitutes the configured default of
365 days, so the difference is 365 days, not the requested 0. -/
theorem c7_counterexample :
    create_certificate demoStore 1 "cn" "CN=x" CertificateType.server none
        (some 0) true 0 10 "pk" = Except.ok demoCert ∧
    demoCert.not_after - demoCert.not_before = 86400 * 365 ∧
    (86400 * 365 : Int) ≠ 86400 * 0 := by
  exact ⟨rfl, rfl, by decide⟩

/-- Helper: updating a key that is present makes lookup return the new
record. -/
theorem getById_setById {α : Type} (l : List (Nat × α)) (i : Nat) (v : α) :
    (getById l i).isSome = true → getById (setById l i v) i = some v := by
  induction l with
  | nil => intro h; simp [getById] at h
  | cons p rest ih =>
    obtain ⟨k, w⟩ := p
    intro h
    by_cases hk : k = i
    · subst hk
      simp [getById, setById]
    · simp [getById, setById, hk] at h ⊢
      exact ih h

/-- C5: revoking an absent id fails and changes nothing; revoking a stored
certificate (already revoked or not) returns it with status revoked and a
fresh non-null revocation timestamp, stores that update under its id,
appends exactly one CRLEntry keyed to the certificate's serial number and
immediate issuer id, and leaves the CA table unchanged. -/
theorem c5_revoke_semantics :
    ∀ (s : Store) (cert_id : Nat) (reason : Option String) (now : Int),
      (getById s.certs cert_id = none →
        revoke_certificate s cert_id reason now = (none, s)) ∧
      (∀ c, getById s.certs cert_id = some c →
        (revoke_certificate s cert_id reason now).1 =
            some { c with status := CertificateStatus.revoked,
                          revoked_at := some now } ∧
        ((revoke_certificate s cert_id reason now).2).crl =
            s.crl ++ [{ serial_number := c.serial_number
                        revocation_date := now
                        reason := reason
                        ca_id := c.issuer_id }] ∧
        getById ((revoke_certificate s cert_id reason now).2).certs cert_id =
            some { c with status := CertificateStatus.revoked,
                          revoked_at := some now } ∧
        ((revoke_certificate s cert_id reason now).2).cas = s.cas) := by
  intro s cert_id reason now
  constructor
  · intro h
    unfold revoke_certificate
    rw [h]
  · intro c h
    unfold revoke_certificate
    rw [h]
    refine ⟨rfl, rfl, ?_, rfl⟩
    exact getById_setById s.certs cert_id _ (by rw [h]; rfl)

/-- Witness for C5 at concrete inputs: revoking the absent id 9 fails and
leaves the store unchanged; re-revoking the already-revoked certificate 7
succeeds, refreshes the timestamp and appends another CRL entry. -/
theorem c5_witness :
    revoke_certificate revStore 9 none 6 = (none, revStore) ∧
    ((revoke_certificate revStore 7 (some "compromise") 6).1 =
        some { revokedCert with status := CertificateStatus.revoked,
                                revoked_at := some 6 } ∧
      ((revoke_certificate revStore 7 (some "compromise") 6).2).crl =
          revStore.crl ++ [{ serial_number := revokedCert.serial_number
                             revocation_date := 6
                             reason := some "compromise"
                             ca_id := revokedCert.issuer_id }] ∧
      getById ((revoke_certificate revStore 7 (some "compromise") 6).2).certs 7 =
          some { revokedCert with status := CertificateStatus.revoked,
                                  revoked_at := some 6 } ∧
      ((revoke_certificate revStore 7 (some "compromise") 6).2).cas =
          revStore.cas) :=
  ⟨(c5_revoke_semantics revStore 9 none 6).1 (by decide),
   (c5_revoke_semantics revStore 7 (some "compromise") 6).2 revokedCert (by decide)⟩

/-- C10: deleting an absent authority id returns false and leaves every
stored record (CAs, certificates and CRL entries) unchanged; the store is
modified only when the id resolves to an existing authority. -/
theorem c10_delete_ca :
    ∀ (s : Store) (ca_id : Nat),
      (getById s.cas ca_id = none → delete_ca s ca_id = (false, s)) ∧
      ((delete_ca s ca_id).2 ≠ s → (getById s.cas ca_id).isSome = true) := by
  intro s ca_id
  constructor
  · intro h
    unfold delete_ca
    rw [h]
  · intro hne
    cases hca : getById s.cas ca_id with
    | none =>
      exfalso
      apply hne
      unfold delete_ca
      rw [hca]
    | some ca => rfl

/-- Witness for C10 at concrete inputs: deleting the absent id 99 from
demoStore fails and changes nothing, while id 1 resolves to an authority. -/
theorem c10_witness :
    delete_ca demoStore 99 = (false, demoStore) ∧
    (getById demoStore.cas 1).isSome = true :=
  ⟨(c10_delete_ca demoStore 99).1 (by decide),
   (c10_delete_ca demoStore 1).2 (by decide)⟩

/-- C2: chain export returns the leaf's PEM first and then follows issuer
references: directly under a root CA the chain is the two blocks leaf then
root; through an intermediate authority certificate it is the three blocks
leaf, intermediate, root; a leaf without issuer reference yields the single
block chain of length 1; and an unresolvable reference stops the walk
defensively, still returning the truncated chain instead of an error. -/
theorem c2_chain_resolution :
    ∀ (s : Store),
      (∀ (leafId : Nat) (leaf : Certificate) (rid : Nat)
          (root : CertificateAuthority) (n : Nat),
        getById s.certs leafId = some leaf → leaf.issuer_id = some rid →
        getById s.cas rid = some root →
        export_certificate_chain s leafId (n + 1) =
          some ([leaf.certificate, root.certificate], true)) ∧
      (∀ (leafId : Nat) (leaf : Certificate) (iid : Nat) (inter : Certificate)
          (rid : Nat) (root : CertificateAuthority) (n : Nat),
        getById s.certs leafId = some leaf → leaf.issuer_id = some iid →
        getById s.cas iid = none → getById s.certs iid = some inter →
        inter.issuer_id = some rid → getById s.cas rid = some root →
        export_certificate_chain s leafId (n + 2) =
          some ([leaf.certificate, inter.certificate, root.certificate], true)) ∧
      (∀ (leafId : Nat) (leaf : Certificate) (n : Nat),
        getById s.certs leafId = some leaf → leaf.issuer_id = none →
        export_certificate_chain s leafId n = some ([leaf.certificate], true)) ∧
      (∀ (leafId : Nat) (leaf : Certificate) (j n : Nat),
        getById s.certs leafId = some leaf → leaf.issuer_id = some j →
        getById s.cas j = none → getById s.certs j = none →
        export_certificate_chain s leafId (n + 1) =
          some ([leaf.certificate], true)) := by
  intro s
  refine ⟨?_, ?_, ?_, ?_⟩
  · intro leafId leaf rid root n h1 h2 h3
    simp [export_certificate_chain, chainFollow, h1, h2, h3]
  · intro leafId leaf iid inter rid root n h1 h2 h3 h4 h5 h6
    simp [export_certificate_chain, chainFollow, h1, h2, h3, h4, h5, h6]
  · intro leafId leaf n h1 h2
    simp [export_certificate_chain, chainFollow, h1, h2]
  · intro leafId leaf j n h1 h2 h3 h4
    simp [export_certificate_chain, chainFollow, h1, h2, h3, h4]

/-- Witness for C2 at concrete inputs in demoStore: two blocks for the leaf
under the root, three blocks through the intermediate, one block for the
issuer-less leaf, and a truncated single-block chain for the dangling
reference. -/
theorem c2_witness :
    export_certificate_chain demoStore 4 1 =
      some ([leafUnderRoot.certificate, rootAuthority.certificate], true) ∧
    export_certificate_chain demoStore 3 2 =
      some ([leafUnderInter.certificate, interCert.certificate,
             rootAuthority.certificate], true) ∧
    export_certificate_chain demoStore 5 0 =
      some ([soloCert.certificate], true) ∧
    export_certificate_chain demoStore 6 1 =
      some ([orphanCert.certificate], true) :=
  ⟨(c2_chain_resolution demoStore).1 4 leafUnderRoot 1 rootAuthority 0
      (by decide) (by decide) (by decide),
   (c2_chain_resolution demoStore).2.1 3 leafUnderInter 2 interCert 1
      rootAuthority 0 (by decide) (by decide) (by decide) (by decide)
      (by decide) (by decide),
   (c2_chain_resolution demoStore).2.2.1 5 soloCert 0 (by decide) (by decide),
   (c2_chain_resolution demoStore).2.2.2 6 orphanCert 99 0 (by decide)
      (by decide) (by decide) (by decide)⟩

/-- C3: the chain-following loop of export_certificate_chain has no depth
limit at all — on the two-certificate issuer cycle it never completes, for
every traversal bound, so the code neither terminates on cyclic stores nor
raises any chain-too-long error. -/
theorem c3_chain_loop_never_terminates :
    ∀ fuel : Nat,
      (chainFollow cyclicStore (some 1) fuel).2 = false ∧
      (chainFollow cyclicStore (some 2) fuel).2 = false := by
  have e1 : getById cyclicStore.cas 1 = none := rfl
  have e2 : getById cyclicStore.certs 1 = some cycCertA := rfl
  have e3 : cycCertA.issuer_id = some 2 := rfl
  have f1 : getById cyclicStore.cas 2 = none := rfl
  have f2 : getById cyclicStore.certs 2 = some cycCertB := rfl
  have f3 : cycCertB.issuer_id = some 1 := rfl
  intro fuel
  induction fuel with
  | zero => exact ⟨rfl, rfl⟩
  | succ n ih =>
    constructor
    · simpa [chainFollow, e1, e2, e3] using ih.2
    · simpa [chainFollow, f1, f2, f3] using ih.1

end FastPKI
